import Mathlib

/-!
Shallow embedding of `Window.h` / `Window.cpp` (the window / swap-chain helper
of the DX12_FW repository).  Win32 and DXGI platform calls are modelled by an
explicit platform state (`OSWindow`, `ProcessState`) and environments
(`DXGIEnv`, `CreateEnv`, `SwapChainEnv`) that fix the results the platform
would return; each operation also emits the list of platform calls it makes,
so that "performs no platform calls" is a provable statement.
-/

namespace DX12FW

/-- A Win32 `RECT`: screen coordinates `left, top, right, bottom` (LONG). -/
structure Rect where
  left : Int
  top : Int
  right : Int
  bottom : Int
deriving DecidableEq, Repr

/-- The `Window` object's private fields (`Window.h`, lines 45-49). -/
structure WindowState where
  g_Fullscreen : Bool
  g_WindowRect : Rect
  g_hWnd : Nat
deriving DecidableEq, Repr

/-- Window style bits from `winuser.h` used by the code. -/
def WS_CAPTION : Nat := 0x00C00000
def WS_SYSMENU : Nat := 0x00080000
def WS_THICKFRAME : Nat := 0x00040000
def WS_MINIMIZEBOX : Nat := 0x00020000
def WS_MAXIMIZEBOX : Nat := 0x00010000
def WS_OVERLAPPEDWINDOW : Nat :=
  WS_CAPTION ||| WS_SYSMENU ||| WS_THICKFRAME ||| WS_MINIMIZEBOX ||| WS_MAXIMIZEBOX

/-- `SetWindowPos` flags used by `SetFullscreen`. -/
def SWP_NOACTIVATE : Nat := 0x0010
def SWP_FRAMECHANGED : Nat := 0x0020

/-- The bits stripped when entering fullscreen (`Window.cpp`, line 231):
`WS_OVERLAPPEDWINDOW & ~(WS_CAPTION | WS_SYSMENU | WS_THICKFRAME |
WS_MINIMIZEBOX | WS_MAXIMIZEBOX)`.  `~x` on a 32-bit `UINT` is
`0xFFFFFFFF ^^^ x`. -/
def borderlessStyle : Nat :=
  WS_OVERLAPPEDWINDOW &&&
    (0xFFFFFFFF ^^^
      (WS_CAPTION ||| WS_SYSMENU ||| WS_THICKFRAME ||| WS_MINIMIZEBOX ||| WS_MAXIMIZEBOX))

/-- Z-order placement argument of `SetWindowPos` (`hWndInsertAfter`). -/
inductive ZOrder where
  | top
  | notopmost
deriving DecidableEq, Repr

/-- `ShowWindow` commands used by the code. -/
inductive ShowCmd where
  | normal
  | maximize
  | shown
deriving DecidableEq, Repr

/-- Observable platform (Win32) calls issued by `SetFullscreen`. -/
inductive PlatformCall where
  | getWindowRect
  | setWindowLong (style : Nat)
  | monitorFromWindow
  | getMonitorInfo
  | setWindowPos (z : ZOrder) (x y cx cy : Int) (flags : Nat)
  | showWindow (cmd : ShowCmd)
deriving DecidableEq, Repr

/-- The OS-side state of the window that the code reads and writes:
its current screen rectangle (`GetWindowRect` / `SetWindowPos`), its
style (`SetWindowLong`), its z-order placement and its show state. -/
structure OSWindow where
  rect : Rect
  style : Nat
  zorder : ZOrder
  showCmd : ShowCmd
deriving DecidableEq, Repr

/-- Effect of `::SetWindowPos(hWnd, z, x, y, cx, cy, flags)` on the OS
window: the window occupies the rectangle with top-left `(x, y)`, width
`cx` and height `cy`, at the requested z-order placement. -/
def applySetWindowPos (os : OSWindow) (z : ZOrder) (x y cx cy : Int) : OSWindow :=
  { os with rect := ⟨x, y, x + cx, y + cy⟩, zorder := z }

/-- `Window::SetFullscreen` (`Window.cpp`, lines 217-284), as a function of
the nearest monitor's rectangle `monitorRect` (the result of
`MonitorFromWindow` + `GetMonitorInfo`), the OS window state and the
`Window` object state.  Returns the new OS state, the new object state and
the list of platform calls made, in order. -/
def SetFullscreen (monitorRect : Rect) (os : OSWindow) (w : WindowState)
    (fullscreen : Bool) : OSWindow × WindowState × List PlatformCall :=
  if w.g_Fullscreen ≠ fullscreen then
    let w1 : WindowState := { w with g_Fullscreen := fullscreen }
    if fullscreen then
      -- ::GetWindowRect(g_hWnd, &g_WindowRect);
      let w2 : WindowState := { w1 with g_WindowRect := os.rect }
      -- ::SetWindowLongW(g_hWnd, GWL_STYLE, windowStyle);
      let os1 : OSWindow := { os with style := borderlessStyle }
      -- ::MonitorFromWindow / ::GetMonitorInfo  →  monitorRect
      -- ::SetWindowPos(g_hWnd, HWND_TOP, ...)
      let os2 := applySetWindowPos os1 ZOrder.top monitorRect.left monitorRect.top
        (monitorRect.right - monitorRect.left) (monitorRect.bottom - monitorRect.top)
      -- ::ShowWindow(g_hWnd, SW_MAXIMIZE);
      let os3 : OSWindow := { os2 with showCmd := ShowCmd.maximize }
      (os3, w2,
        [PlatformCall.getWindowRect,
         PlatformCall.setWindowLong borderlessStyle,
         PlatformCall.monitorFromWindow,
         PlatformCall.getMonitorInfo,
         PlatformCall.setWindowPos ZOrder.top monitorRect.left monitorRect.top
           (monitorRect.right - monitorRect.left) (monitorRect.bottom - monitorRect.top)
           (SWP_FRAMECHANGED ||| SWP_NOACTIVATE),
         PlatformCall.showWindow ShowCmd.maximize])
    else
      -- ::SetWindowLong(g_hWnd, GWL_STYLE, WS_OVERLAPPEDWINDOW);
      let os1 : OSWindow := { os with style := WS_OVERLAPPEDWINDOW }
      -- ::SetWindowPos(g_hWnd, HWND_NOTOPMOST, g_WindowRect.left, ...)
      let os2 := applySetWindowPos os1 ZOrder.notopmost w.g_WindowRect.left w.g_WindowRect.top
        (w.g_WindowRect.right - w.g_WindowRect.left) (w.g_WindowRect.bottom - w.g_WindowRect.top)
      -- ::ShowWindow(g_hWnd, SW_NORMAL);
      let os3 : OSWindow := { os2 with showCmd := ShowCmd.normal }
      (os3, w1,
        [PlatformCall.setWindowLong WS_OVERLAPPEDWINDOW,
         PlatformCall.setWindowPos ZOrder.notopmost w.g_WindowRect.left w.g_WindowRect.top
           (w.g_WindowRect.right - w.g_WindowRect.left)
           (w.g_WindowRect.bottom - w.g_WindowRect.top)
           (SWP_FRAMECHANGED ||| SWP_NOACTIVATE),
         PlatformCall.showWindow ShowCmd.normal])
  else
    (os, w, [])

/-! ### Window creation (`Window::CreateWindow`, `Window.cpp` lines 42-86) -/

/-- Environment fixing what the platform returns during `CreateWindow`:
the primary display metrics (`GetSystemMetrics(SM_CXSCREEN/SM_CYSCREEN)`),
the chrome insets `AdjustWindowRect` adds around the client rectangle for
`WS_OVERLAPPEDWINDOW` (non-negative outsets on each side), the handle
`CreateWindowExW` returns (`none` models a NULL handle), and the rectangle
`GetWindowRect` reports for the freshly created window. -/
structure CreateEnv where
  screenWidth : Int
  screenHeight : Int
  chromeL : Int
  chromeT : Int
  chromeR : Int
  chromeB : Int
  createResult : Option Nat
  osRect : Rect
deriving DecidableEq, Repr

/-- `::AdjustWindowRect(&rect, WS_OVERLAPPEDWINDOW, FALSE)`: grows the
client rectangle outward by the chrome insets of the style. -/
def adjustWindowRect (e : CreateEnv) (r : Rect) : Rect :=
  ⟨r.left - e.chromeL, r.top - e.chromeT, r.right + e.chromeR, r.bottom + e.chromeB⟩

/-- The result of a successful `Window::CreateWindow`: the handle, the
creation position and outer size passed to `CreateWindowExW`, and the
`g_WindowRect` recorded by the closing `::GetWindowRect` call. -/
structure CreatedWindow where
  hWnd : Nat
  x : Int
  y : Int
  width : Int
  height : Int
  g_WindowRect : Rect
deriving DecidableEq, Repr

/-- `Window::CreateWindow(hInst, windowTitle, width, height)`.  The C++
`assert(g_hWnd && "Failed to create window")` is modelled as aborting
with a diagnostic when `CreateWindowExW` returned NULL: the function
returns `.error` instead of a degraded window.  Integer division is C++
truncating division (`Int.tdiv`). -/
def CreateWindow (e : CreateEnv) (width height : Nat) : Except String CreatedWindow :=
  let windowRect : Rect := ⟨0, 0, (width : Int), (height : Int)⟩
  let adjusted := adjustWindowRect e windowRect
  let windowWidth := adjusted.right - adjusted.left
  let windowHeight := adjusted.bottom - adjusted.top
  let windowX := max 0 (Int.tdiv (e.screenWidth - windowWidth) 2)
  let windowY := max 0 (Int.tdiv (e.screenHeight - windowHeight) 2)
  match e.createResult with
  | none => Except.error "Failed to create window"
  | some h =>
      Except.ok ⟨h, windowX, windowY, windowWidth, windowHeight, e.osRect⟩

/-! ### Tearing support (`Window::CheckTearingSupport`, lines 92-116) -/

/-- Environment fixing the outcomes of the three DXGI steps of
`CheckTearingSupport`: whether `CreateDXGIFactory1` succeeds, whether the
query for the `IDXGIFactory5` interface succeeds, and the outcome of
`CheckFeatureSupport(DXGI_FEATURE_PRESENT_ALLOW_TEARING)` — `none` models
a FAILED HRESULT, `some b` a SUCCEEDED call writing `b` into
`allowTearing`. -/
structure DXGIEnv where
  createFactory4 : Bool
  asFactory5 : Bool
  checkFeatureSupport : Option Bool
deriving DecidableEq, Repr

/-- `Window::CheckTearingSupport()`.  `allowTearing` starts FALSE, is only
written by a successful `CheckFeatureSupport`, and is reset to FALSE when
that call fails; the function returns `allowTearing == TRUE`.  Its return
type is `Bool`: no error is ever propagated. -/
def CheckTearingSupport (env : DXGIEnv) : Bool :=
  let allowTearing := false
  let allowTearing :=
    if env.createFactory4 then
      if env.asFactory5 then
        match env.checkFeatureSupport with
        | some b => b
        | none => false
      else allowTearing
    else allowTearing
  allowTearing

/-! ### Swap-chain creation (`Window::CreateSwapChain`, lines 120-184) -/

def DXGI_FORMAT_R8G8B8A8_UNORM : Nat := 28
def DXGI_USAGE_RENDER_TARGET_OUTPUT : Nat := 0x20
def DXGI_SCALING_STRETCH : Nat := 0
def DXGI_SWAP_EFFECT_FLIP_DISCARD : Nat := 4
def DXGI_ALPHA_MODE_UNSPECIFIED : Nat := 0
def DXGI_SWAP_CHAIN_FLAG_ALLOW_TEARING : Nat := 2048

/-- The `DXGI_SWAP_CHAIN_DESC1` structure as filled in by
`CreateSwapChain` (lines 145-163). -/
structure SwapChainDesc where
  width : Nat
  height : Nat
  format : Nat
  stereo : Bool
  sampleCount : Nat
  sampleQuality : Nat
  bufferUsage : Nat
  bufferCount : Nat
  scaling : Nat
  swapEffect : Nat
  alphaMode : Nat
  flags : Nat
deriving DecidableEq, Repr

/-- The swap-chain description built by `CreateSwapChain` for the given
arguments, in the given DXGI environment (the environment decides what
`CheckTearingSupport()` returns on line 163). -/
def buildSwapChainDesc (env : DXGIEnv) (width height bufferCount : Nat) : SwapChainDesc :=
  { width := width
    height := height
    format := DXGI_FORMAT_R8G8B8A8_UNORM
    stereo := false
    sampleCount := 1
    sampleQuality := 0
    bufferUsage := DXGI_USAGE_RENDER_TARGET_OUTPUT
    bufferCount := bufferCount
    scaling := DXGI_SCALING_STRETCH
    swapEffect := DXGI_SWAP_EFFECT_FLIP_DISCARD
    alphaMode := DXGI_ALPHA_MODE_UNSPECIFIED
    flags :=
      if CheckTearingSupport env then DXGI_SWAP_CHAIN_FLAG_ALLOW_TEARING else 0 }

/-- Modelled from the spec: the DXGI runtime's `CreateSwapChainForHwnd`
(a platform call, outside this repository) rejects a flip-model
description whose buffer count is out of range — "flip-model presentation
requires at least double buffering" (`bufferCount ≥ 2`, and DXGI caps the
count at 16); it also requires a valid, non-null command queue. -/
def platformAcceptsSwapChain (commandQueueValid : Bool) (d : SwapChainDesc) : Bool :=
  commandQueueValid && decide (2 ≤ d.bufferCount) && decide (d.bufferCount ≤ 16)

/-- Environment for `CreateSwapChain`: the DXGI capability environment,
whether `CreateDXGIFactory2` succeeds, whether the `commandQueue` argument
is a valid non-null queue, and whether the remaining platform calls
(`MakeWindowAssociation`, the `IDXGISwapChain4` upgrade) succeed. -/
structure SwapChainEnv where
  dxgi : DXGIEnv
  createFactory2 : Bool
  commandQueueValid : Bool
  makeWindowAssociation : Bool
  asSwapChain4 : Bool
deriving DecidableEq, Repr

/-- Modelled from the spec: `ThrowIfFailed` (defined in `Helpers.h`, which
is not under `src/`) escalates any failed platform call as a fatal error
("any driver/platform call failing during construction is escalated as a
fatal error").  Modelled as `throw` in the `Except` monad. -/
def ThrowIfFailed (succeeded : Bool) (diag : String) : Except String Unit :=
  if succeeded then Except.ok () else Except.error diag

/-- `Window::CreateSwapChain(commandQueue, width, height, bufferCount)`.
Every platform call is wrapped in `ThrowIfFailed`; on success the
swap-chain description of the returned surface is the one built on lines
145-163. -/
def CreateSwapChain (env : SwapChainEnv) (width height bufferCount : Nat) :
    Except String SwapChainDesc := do
  ThrowIfFailed env.createFactory2 "CreateDXGIFactory2 failed"
  let swapChainDesc := buildSwapChainDesc env.dxgi width height bufferCount
  ThrowIfFailed (platformAcceptsSwapChain env.commandQueueValid swapChainDesc)
    "CreateSwapChainForHwnd failed"
  ThrowIfFailed env.makeWindowAssociation "MakeWindowAssociation failed"
  ThrowIfFailed env.asSwapChain4 "As IDXGISwapChain4 failed"
  pure swapChainDesc

/-! ### Window-class registration (`Window::RegisterWindowClass`, lines 13-39) -/

/-- The process-wide state behind `static ATOM atom = ::RegisterClassExW(...)`
(line 37): a function-local static is initialized at most once per process,
on the first execution of the declaration.  `none` means the static has not
been initialized yet. -/
structure ProcessState where
  classAtom : Option Nat
deriving DecidableEq, Repr

/-- Platform calls observable from `RegisterWindowClass`. -/
inductive RegCall where
  | registerClassExW
deriving DecidableEq, Repr

/-- One call to `Window::RegisterWindowClass`: runs `::RegisterClassExW`
only if the function-local static `atom` is not yet initialized
(`registerResult` is the ATOM the platform would return). -/
def RegisterWindowClass (registerResult : Nat) (s : ProcessState) :
    ProcessState × List RegCall :=
  match s.classAtom with
  | some _ => (s, [])
  | none => (⟨some registerResult⟩, [RegCall.registerClassExW])

/-- A sequence of `n` calls to `RegisterWindowClass` (possibly from several
`Window` instances — the static is per process, not per instance),
accumulating all platform calls made. -/
def RegisterWindowClassSeq (registerResult : Nat) :
    Nat → ProcessState → ProcessState × List RegCall
  | 0, s => (s, [])
  | n + 1, s =>
      let (s1, cs1) := RegisterWindowClass registerResult s
      let (s2, cs2) := RegisterWindowClassSeq registerResult n s1
      (s2, cs1 ++ cs2)

/-- One full fullscreen cycle from a windowed state: `SetFullscreen(true)`
(nearest monitor `m`) followed by `SetFullscreen(false)` (nearest monitor
`m'`); returns the final OS window state and `Window` object state. -/
def enterExit (m m' : Rect) (os : OSWindow) (w : WindowState) : OSWindow × WindowState :=
  ((SetFullscreen m' (SetFullscreen m os w true).1 (SetFullscreen m os w true).2.1 false).1,
   (SetFullscreen m' (SetFullscreen m os w true).1 (SetFullscreen m os w true).2.1 false).2.1)

/-! ### Concrete sample values (used by the witness theorems) -/

def sampleMonitor : Rect := ⟨0, 0, 1920, 1080⟩
def sampleMonitor2 : Rect := ⟨1920, 0, 3840, 1080⟩
def sampleRect : Rect := ⟨320, 180, 1600, 900⟩
def sampleOS : OSWindow := ⟨sampleRect, WS_OVERLAPPEDWINDOW, ZOrder.notopmost, ShowCmd.normal⟩
def sampleOS2 : OSWindow := ⟨⟨100, 100, 900, 700⟩, WS_OVERLAPPEDWINDOW, ZOrder.notopmost, ShowCmd.normal⟩
def sampleWin : WindowState := ⟨false, sampleRect, 7⟩
def sampleCreateEnv : CreateEnv := ⟨1920, 1080, 8, 31, 8, 8, some 7, ⟨312, 160, 1608, 919⟩⟩
def sampleCreateEnvNull : CreateEnv := ⟨1920, 1080, 8, 31, 8, 8, none, ⟨0, 0, 0, 0⟩⟩
def sampleCreated : CreatedWindow := ⟨7, 312, 160, 1296, 759, ⟨312, 160, 1608, 919⟩⟩
def sampleDXGIFail : DXGIEnv := ⟨true, false, none⟩
def sampleSwapEnv : SwapChainEnv := ⟨⟨true, true, some true⟩, true, true, true, true⟩

/-! ### Helper lemmas -/

/-- After any call to `SetFullscreen d`, `g_Fullscreen = d`. -/
theorem setFullscreen_flag_eq (m : Rect) (os : OSWindow) (w : WindowState) (d : Bool) :
    (SetFullscreen m os w d).2.1.g_Fullscreen = d := by
  by_cases h : w.g_Fullscreen = d
  · simp [SetFullscreen, h]
  · cases d <;> simp [SetFullscreen, h]

/-- A call whose argument equals the current flag takes the else-branch of
line 219: identity on both states, empty call list. -/
theorem setFullscreen_eq_id (m : Rect) (os : OSWindow) (w : WindowState) (d : Bool)
    (h : w.g_Fullscreen = d) : SetFullscreen m os w d = (os, w, []) := by
  simp [SetFullscreen, h]

/-- `SetFullscreen` never touches the window handle field. -/
theorem setFullscreen_hWnd_eq (m : Rect) (os : OSWindow) (w : WindowState) (d : Bool) :
    (SetFullscreen m os w d).2.1.g_hWnd = w.g_hWnd := by
  by_cases h : w.g_Fullscreen = d
  · simp [SetFullscreen, h]
  · cases d <;> simp [SetFullscreen, h]

/-- Rebuilding a rectangle from its top-left corner and its width and
height yields the same rectangle. -/
theorem rect_reassemble (r : Rect) :
    (⟨r.left, r.top, r.left + (r.right - r.left), r.top + (r.bottom - r.top)⟩ : Rect) = r := by
  cases r
  simp only [Rect.mk.injEq, true_and]
  constructor <;> omega

/-- The Windowed → FullscreenBorderless branch of `SetFullscreen`, fully
evaluated. -/
theorem setFullscreen_enter_eq (m : Rect) (os : OSWindow) (w : WindowState)
    (h : w.g_Fullscreen = false) :
    SetFullscreen m os w true =
      (⟨⟨m.left, m.top, m.left + (m.right - m.left), m.top + (m.bottom - m.top)⟩,
        borderlessStyle, ZOrder.top, ShowCmd.maximize⟩,
       ⟨true, os.rect, w.g_hWnd⟩,
       [PlatformCall.getWindowRect,
        PlatformCall.setWindowLong borderlessStyle,
        PlatformCall.monitorFromWindow,
        PlatformCall.getMonitorInfo,
        PlatformCall.setWindowPos ZOrder.top m.left m.top (m.right - m.left) (m.bottom - m.top)
          (SWP_FRAMECHANGED ||| SWP_NOACTIVATE),
        PlatformCall.showWindow ShowCmd.maximize]) := by
  simp [SetFullscreen, applySetWindowPos, h]

/-- The FullscreenBorderless → Windowed branch of `SetFullscreen`, fully
evaluated. -/
theorem setFullscreen_exit_eq (m : Rect) (os : OSWindow) (w : WindowState)
    (h : w.g_Fullscreen = true) :
    SetFullscreen m os w false =
      (⟨⟨w.g_WindowRect.left, w.g_WindowRect.top,
         w.g_WindowRect.left + (w.g_WindowRect.right - w.g_WindowRect.left),
         w.g_WindowRect.top + (w.g_WindowRect.bottom - w.g_WindowRect.top)⟩,
        WS_OVERLAPPEDWINDOW, ZOrder.notopmost, ShowCmd.normal⟩,
       ⟨false, w.g_WindowRect, w.g_hWnd⟩,
       [PlatformCall.setWindowLong WS_OVERLAPPEDWINDOW,
        PlatformCall.setWindowPos ZOrder.notopmost w.g_WindowRect.left w.g_WindowRect.top
          (w.g_WindowRect.right - w.g_WindowRect.left)
          (w.g_WindowRect.bottom - w.g_WindowRect.top)
          (SWP_FRAMECHANGED ||| SWP_NOACTIVATE),
        PlatformCall.showWindow ShowCmd.normal]) := by
  simp [SetFullscreen, applySetWindowPos, h]

/-- A full enter/exit cycle from a windowed state restores the OS rectangle
it started from, leaves that rectangle in `g_WindowRect`, and ends
windowed. -/
theorem enterExit_restores (m m' : Rect) (os : OSWindow) (w : WindowState)
    (h : w.g_Fullscreen = false) :
    (enterExit m m' os w).1.rect = os.rect ∧
    (enterExit m m' os w).2.g_WindowRect = os.rect ∧
    (enterExit m m' os w).2.g_Fullscreen = false := by
  unfold enterExit
  rw [setFullscreen_enter_eq m os w h]
  rw [setFullscreen_exit_eq m' _ _ rfl]
  exact ⟨rect_reassemble os.rect, rfl, rfl⟩

/-- Once the function-local static is initialized, `RegisterWindowClass` is
a no-op that makes no platform calls. -/
theorem registerWindowClass_initialized (a v : Nat) (s : ProcessState)
    (h : s.classAtom = some v) : RegisterWindowClass a s = (s, []) := by
  obtain ⟨atom⟩ := s
  cases atom with
  | none => exact absurd h (by simp)
  | some u => rfl

/-- A whole sequence of `RegisterWindowClass` calls from an initialized
process state makes no platform calls. -/
theorem registerWindowClassSeq_initialized (a v : Nat) : ∀ (n : Nat) (s : ProcessState),
    s.classAtom = some v → RegisterWindowClassSeq a n s = (s, []) := by
  intro n
  induction n with
  | zero => intro s h; rfl
  | succ k ih =>
      intro s h
      have h1 : RegisterWindowClass a s = (s, []) := registerWindowClass_initialized a v s h
      simp [RegisterWindowClassSeq, h1, ih s h]

/-! ### Claims -/

/-- C1: calling `SetFullscreen(desired)` with `desired` equal to the current
fullscreen flag performs no platform calls and leaves the entire state (OS
window and `Window` object) unchanged; in particular a second call with the
same value right after a first one is a no-op. -/
theorem setFullscreen_noop_on_same_state (m m' : Rect) (os : OSWindow) (w : WindowState)
    (d : Bool) :
    (d = w.g_Fullscreen → SetFullscreen m os w d = (os, w, [])) ∧
    SetFullscreen m' (SetFullscreen m os w d).1 (SetFullscreen m os w d).2.1 d =
      ((SetFullscreen m os w d).1, (SetFullscreen m os w d).2.1, []) := by
  constructor
  · intro h
    exact setFullscreen_eq_id m os w d h.symm
  · exact setFullscreen_eq_id m' _ _ d (setFullscreen_flag_eq m os w d)

/-- Witness for C1 at a concrete windowed state. -/
theorem setFullscreen_noop_on_same_state_witness :
    SetFullscreen sampleMonitor sampleOS sampleWin false = (sampleOS, sampleWin, []) :=
  (setFullscreen_noop_on_same_state sampleMonitor sampleMonitor2 sampleOS sampleWin false).1 rfl

/-- C2: from a windowed state, `SetFullscreen(true)` records the OS window
rectangle in `g_WindowRect`, and the following `SetFullscreen(false)`
reapplies exactly that rectangle (bit-exact, as a `Rect` equality covering
left, top, right and bottom). -/
theorem setFullscreen_roundtrip_restores_rect (m m' : Rect) (os : OSWindow)
    (w : WindowState) (h : w.g_Fullscreen = false) :
    (SetFullscreen m os w true).2.1.g_WindowRect = os.rect ∧
    (SetFullscreen m' (SetFullscreen m os w true).1
      (SetFullscreen m os w true).2.1 false).1.rect = os.rect := by
  rw [setFullscreen_enter_eq m os w h]
  refine ⟨rfl, ?_⟩
  rw [setFullscreen_exit_eq m' _ _ rfl]
  exact rect_reassemble os.rect

/-- Witness for C2 at a concrete windowed state. -/
theorem setFullscreen_roundtrip_restores_rect_witness :
    (SetFullscreen sampleMonitor sampleOS sampleWin true).2.1.g_WindowRect = sampleOS.rect ∧
    (SetFullscreen sampleMonitor2 (SetFullscreen sampleMonitor sampleOS sampleWin true).1
      (SetFullscreen sampleMonitor sampleOS sampleWin true).2.1 false).1.rect = sampleOS.rect :=
  setFullscreen_roundtrip_restores_rect sampleMonitor sampleMonitor2 sampleOS sampleWin rfl

/-- C3: for positive client sizes, `CreateWindow` requests the outer size
produced by the chrome adjustment and places the top-left corner at
`((screenWidth - windowWidth) / 2, (screenHeight - windowHeight) / 2)`
(C++ truncating division), each coordinate clamped from below to `0`. -/
theorem createWindow_centers_and_clamps (e : CreateEnv) (width height : Nat)
    (cw : CreatedWindow) (_hw : 0 < width) (_hh : 0 < height)
    (hok : CreateWindow e width height = Except.ok cw) :
    cw.width = (width : Int) + e.chromeL + e.chromeR ∧
    cw.height = (height : Int) + e.chromeT + e.chromeB ∧
    cw.x = max 0 (Int.tdiv (e.screenWidth - cw.width) 2) ∧
    cw.y = max 0 (Int.tdiv (e.screenHeight - cw.height) 2) ∧
    0 ≤ cw.x ∧ 0 ≤ cw.y := by
  have hW : (width : Int) + e.chromeR - (0 - e.chromeL) =
      (width : Int) + e.chromeL + e.chromeR := by ring
  have hH : (height : Int) + e.chromeB - (0 - e.chromeT) =
      (height : Int) + e.chromeT + e.chromeB := by ring
  unfold CreateWindow adjustWindowRect at hok
  cases hc : e.createResult with
  | none => rw [hc] at hok; exact absurd hok (by simp)
  | some hwnd =>
      rw [hc] at hok
      simp only [Except.ok.injEq] at hok
      subst hok
      simp only [hW, hH]
      exact ⟨trivial, trivial, trivial, trivial, le_max_left 0 _, le_max_left 0 _⟩

/-- Witness for C3: the concrete 1280×720 window on a 1920×1080 screen. -/
theorem createWindow_centers_and_clamps_witness :
    sampleCreated.width = (1280 : Int) + sampleCreateEnv.chromeL + sampleCreateEnv.chromeR ∧
    sampleCreated.height = (720 : Int) + sampleCreateEnv.chromeT + sampleCreateEnv.chromeB ∧
    sampleCreated.x = max 0 (Int.tdiv (sampleCreateEnv.screenWidth - sampleCreated.width) 2) ∧
    sampleCreated.y = max 0 (Int.tdiv (sampleCreateEnv.screenHeight - sampleCreated.height) 2) ∧
    0 ≤ sampleCreated.x ∧ 0 ≤ sampleCreated.y :=
  createWindow_centers_and_clamps sampleCreateEnv 1280 720 sampleCreated
    (by decide) (by decide) (by rfl)

/-- C4: `CheckTearingSupport` is a total `Bool`-valued function (it never
propagates an error); it returns `false` whenever factory creation, the
interface upgrade or the feature check fails, and returns `true` exactly
when every step succeeds and the driver reports the feature. -/
theorem checkTearingSupport_never_errors (env : DXGIEnv) :
    ((env.createFactory4 = false ∨ env.asFactory5 = false ∨
        env.checkFeatureSupport = none) → CheckTearingSupport env = false) ∧
    (CheckTearingSupport env = true ↔
      env.createFactory4 = true ∧ env.asFactory5 = true ∧
        env.checkFeatureSupport = some true) := by
  obtain ⟨cf, a5, fs⟩ := env
  cases cf <;> cases a5 <;> rcases fs with _ | b <;> try cases b
  all_goals decide

/-- Witness for C4: a failed interface upgrade yields `false`. -/
theorem checkTearingSupport_never_errors_witness :
    CheckTearingSupport sampleDXGIFail = false :=
  (checkTearingSupport_never_errors sampleDXGIFail).1 (Or.inr (Or.inl rfl))

/-- C5: in the swap-chain description, the tearing-allowed flag is set iff
`CheckTearingSupport` returns `true`; without support the flags field is 0. -/
theorem swapChainDesc_flags_iff_tearing (env : DXGIEnv) (w h n : Nat) :
    ((buildSwapChainDesc env w h n).flags = DXGI_SWAP_CHAIN_FLAG_ALLOW_TEARING ↔
      CheckTearingSupport env = true) ∧
    (CheckTearingSupport env = false → (buildSwapChainDesc env w h n).flags = 0) := by
  cases hts : CheckTearingSupport env <;>
    simp [buildSwapChainDesc, hts, DXGI_SWAP_CHAIN_FLAG_ALLOW_TEARING]

/-- Witness for C5: with tearing unsupported the flags field is 0. -/
theorem swapChainDesc_flags_iff_tearing_witness :
    (buildSwapChainDesc sampleDXGIFail 1280 720 3).flags = 0 :=
  (swapChainDesc_flags_iff_tearing sampleDXGIFail 1280 720 3).2 rfl

/-- C6: the Windowed → FullscreenBorderless transition saves the current OS
rectangle, sets the borderless style (all of the caption / system-menu /
thick-frame / minimize-box / maximize-box bits cleared), queries the
nearest monitor, resizes the window to exactly its bounds, places it at the
top of the z-order with `SWP_NOACTIVATE` (no focus steal), and shows the
window maximized — with exactly this platform-call trace. -/
theorem setFullscreen_enter_transition (m : Rect) (os : OSWindow) (w : WindowState)
    (h : w.g_Fullscreen = false) :
    (SetFullscreen m os w true).2.1.g_WindowRect = os.rect ∧
    (SetFullscreen m os w true).1.style = borderlessStyle ∧
    (SetFullscreen m os w true).1.style &&&
      (WS_CAPTION ||| WS_SYSMENU ||| WS_THICKFRAME ||| WS_MINIMIZEBOX ||| WS_MAXIMIZEBOX) = 0 ∧
    (SetFullscreen m os w true).1.rect = m ∧
    (SetFullscreen m os w true).1.zorder = ZOrder.top ∧
    (SetFullscreen m os w true).1.showCmd = ShowCmd.maximize ∧
    (SetFullscreen m os w true).2.2 =
      [PlatformCall.getWindowRect,
       PlatformCall.setWindowLong borderlessStyle,
       PlatformCall.monitorFromWindow,
       PlatformCall.getMonitorInfo,
       PlatformCall.setWindowPos ZOrder.top m.left m.top (m.right - m.left) (m.bottom - m.top)
         (SWP_FRAMECHANGED ||| SWP_NOACTIVATE),
       PlatformCall.showWindow ShowCmd.maximize] := by
  rw [setFullscreen_enter_eq m os w h]
  refine ⟨rfl, rfl, ?_, rect_reassemble m, rfl, rfl, rfl⟩
  show borderlessStyle &&&
    (WS_CAPTION ||| WS_SYSMENU ||| WS_THICKFRAME ||| WS_MINIMIZEBOX ||| WS_MAXIMIZEBOX) = 0
  decide

/-- Witness for C6 at a concrete windowed state. -/
theorem setFullscreen_enter_transition_witness :
    (SetFullscreen sampleMonitor sampleOS sampleWin true).1.rect = sampleMonitor ∧
    (SetFullscreen sampleMonitor sampleOS sampleWin true).1.zorder = ZOrder.top ∧
    (SetFullscreen sampleMonitor sampleOS sampleWin true).1.showCmd = ShowCmd.maximize :=
  ⟨(setFullscreen_enter_transition sampleMonitor sampleOS sampleWin rfl).2.2.2.1,
   (setFullscreen_enter_transition sampleMonitor sampleOS sampleWin rfl).2.2.2.2.1,
   (setFullscreen_enter_transition sampleMonitor sampleOS sampleWin rfl).2.2.2.2.2.1⟩

/-- C7: `CreateSwapChain` with `bufferCount = 1` never returns a usable
surface: the call always ends in an error, and when factory creation
succeeds the error is the rejected `CreateSwapChainForHwnd` call. -/
theorem createSwapChain_rejects_bufferCount_one (env : SwapChainEnv) (w h : Nat) :
    (∀ d, CreateSwapChain env w h 1 ≠ Except.ok d) ∧
    (env.createFactory2 = true →
      CreateSwapChain env w h 1 = Except.error "CreateSwapChainForHwnd failed") := by
  constructor
  · intro d
    cases hcf : env.createFactory2 <;>
      simp [CreateSwapChain, ThrowIfFailed, platformAcceptsSwapChain, buildSwapChainDesc,
        hcf, Bind.bind, Except.bind]
  · intro hcf
    simp [CreateSwapChain, ThrowIfFailed, platformAcceptsSwapChain, buildSwapChainDesc,
      hcf, Bind.bind, Except.bind]

/-- Witness for C7: a fully capable platform still rejects a single-buffer
swap chain. -/
theorem createSwapChain_rejects_bufferCount_one_witness :
    CreateSwapChain sampleSwapEnv 1280 720 1 =
      Except.error "CreateSwapChainForHwnd failed" :=
  (createSwapChain_rejects_bufferCount_one sampleSwapEnv 1280 720).2 rfl

/-- C8: across any sequence of `RegisterWindowClass` calls in one process,
`RegisterClassExW` runs at most once (the call list has length ≤ 1 from any
process state); starting from the uninitialized process state it runs
exactly on the first call and never again. -/
theorem registerWindowClass_at_most_once (a n : Nat) (s : ProcessState) :
    (RegisterWindowClassSeq a n s).2.length ≤ 1 ∧
    (RegisterWindowClassSeq a n ⟨none⟩).2 =
      if n = 0 then [] else [RegCall.registerClassExW] := by
  have fresh : ∀ k : Nat, (RegisterWindowClassSeq a k (⟨none⟩ : ProcessState)).2 =
      if k = 0 then [] else [RegCall.registerClassExW] := by
    intro k
    cases k with
    | zero => rfl
    | succ j =>
        have hinit := registerWindowClassSeq_initialized a a j ⟨some a⟩ rfl
        simp [RegisterWindowClassSeq, RegisterWindowClass, hinit]
  constructor
  · rcases s with ⟨_ | v⟩
    · rw [fresh n]
      split <;> simp
    · rw [registerWindowClassSeq_initialized a v n ⟨some v⟩ rfl]
      simp
  · exact fresh n

/-- C9: when the platform returns a NULL window handle, `CreateWindow`
aborts with the diagnostic of `assert(g_hWnd && "Failed to create window")`
instead of returning any (degraded) handle. -/
theorem createWindow_null_handle_fatal (e : CreateEnv) (width height : Nat)
    (h : e.createResult = none) :
    CreateWindow e width height = Except.error "Failed to create window" := by
  simp [CreateWindow, h]

/-- Witness for C9 at a concrete environment whose window creation fails. -/
theorem createWindow_null_handle_fatal_witness :
    CreateWindow sampleCreateEnvNull 1280 720 = Except.error "Failed to create window" :=
  createWindow_null_handle_fatal sampleCreateEnvNull 1280 720 rfl

/-- C10: `SetFullscreen` never writes `g_hWnd`; `g_WindowRect` is untouched
by the no-op branch and by the FullscreenBorderless → Windowed branch, and
is written (to the current OS rectangle) only on Windowed →
FullscreenBorderless; consequently each repeated enter/exit cycle restores
the rectangle captured at its own (most recent) fullscreen entry. -/
theorem setFullscreen_frame_conditions (m1 m1' m2 m2' : Rect) (os os' : OSWindow)
    (w : WindowState) (d : Bool) :
    (SetFullscreen m1 os w d).2.1.g_hWnd = w.g_hWnd ∧
    (d = w.g_Fullscreen → (SetFullscreen m1 os w d).2.1.g_WindowRect = w.g_WindowRect) ∧
    (w.g_Fullscreen = true →
      (SetFullscreen m1 os w false).2.1.g_WindowRect = w.g_WindowRect) ∧
    (w.g_Fullscreen = false →
      (SetFullscreen m1 os w true).2.1.g_WindowRect = os.rect) ∧
    (w.g_Fullscreen = false →
      (enterExit m2 m2' os' (enterExit m1 m1' os w).2).1.rect = os'.rect ∧
      (enterExit m2 m2' os' (enterExit m1 m1' os w).2).2.g_WindowRect = os'.rect) := by
  refine ⟨setFullscreen_hWnd_eq m1 os w d, fun h => ?_, fun h => ?_, fun h => ?_, fun h => ?_⟩
  · rw [setFullscreen_eq_id m1 os w d h.symm]
  · rw [setFullscreen_exit_eq m1 os w h]
  · rw [setFullscreen_enter_eq m1 os w h]
  · obtain ⟨-, -, hflag⟩ := enterExit_restores m1 m1' os w h
    obtain ⟨h1, h2, -⟩ := enterExit_restores m2 m2' os' _ hflag
    exact ⟨h1, h2⟩

/-- Witness for C10: handle preservation and a concrete double
enter/exit cycle restoring the most recently captured rectangle. -/
theorem setFullscreen_frame_conditions_witness :
    (SetFullscreen sampleMonitor sampleOS sampleWin true).2.1.g_hWnd = sampleWin.g_hWnd ∧
    (enterExit sampleMonitor sampleMonitor2 sampleOS2
      (enterExit sampleMonitor sampleMonitor2 sampleOS sampleWin).2).1.rect = sampleOS2.rect :=
  ⟨(setFullscreen_frame_conditions sampleMonitor sampleMonitor2 sampleMonitor sampleMonitor2
      sampleOS sampleOS2 sampleWin true).1,
   ((setFullscreen_frame_conditions sampleMonitor sampleMonitor2 sampleMonitor sampleMonitor2
      sampleOS sampleOS2 sampleWin true).2.2.2.2 rfl).1⟩

end DX12FW
